import Mathlib

/-!
Shallow embedding of the KisanMitra advisory server (a JavaScript/Express
application) and proofs about its behaviour.

Conventions of the embedding:
* JavaScript strings are Lean `String`s; string library calls
  (`includes`, `startsWith`, `substring`) are modelled on the underlying
  character lists.
* A JavaScript value that may be `null`/`undefined` is an `Option`.
* JavaScript numbers are modelled as `ℚ` (the numeric values occurring in
  the program are small and exact; no NaN/Infinity arises in the modelled
  code paths).  In a relational comparison JavaScript coerces `null` to `0`
  (`ToNumber(null) = +0`); `jsNum` captures that coercion.
* The decimal rendering of a number inside a template literal is modelled
  by `jsRenderNum`; `null` renders as the string `"null"` exactly as a JS
  template literal does.  (For non-integral rationals the exact decimal
  formatting of JS is abstracted; every number reaching a template in the
  modelled code is rendered injectively.)
* The `async` HTTP fetches are modelled as oracle functions
  `String → Except JsError α` passed to the handler; a thrown error is the
  `.error` case, carrying the fields the handlers inspect
  (`err.response?.status`, `err.code`, `err.message`).
-/

namespace KisanMitra

/-! ## Character-list helpers for the JavaScript string methods -/

/-- Containment of `pat` in a character list, scanning left to right:
the semantics of `String.prototype.includes`. -/
def charsContains (pat : List Char) : List Char → Bool
  | [] => pat.isEmpty
  | c :: rest => pat.isPrefixOf (c :: rest) || charsContains pat rest

/-- `s.includes(pat)` on JavaScript strings. -/
def strIncludes (s pat : String) : Bool :=
  charsContains pat.data s.data

/-- `s.startsWith(p)` on JavaScript strings. -/
def jsStartsWith (s p : String) : Bool :=
  p.data.isPrefixOf s.data

/-- `s.substring(n)` on JavaScript strings (drop the first `n` code units). -/
def jsSubstring (s : String) (n : Nat) : String :=
  String.mk (s.data.drop n)

/-- Truthiness of an optional JavaScript string: `undefined` and `""` are
falsy, every other string is truthy. -/
def strFalsy : Option String → Bool
  | none => true
  | some s => s = ""

/-- `x || d` where `x` is a possibly-absent string and `d` a default. -/
def jsOrStr (x : Option String) (d : String) : String :=
  match x with
  | none => d
  | some s => if s = "" then d else s

/-- `x || null` where `x` is a possibly-absent number: the falsy number `0`
collapses to `null`. -/
def jsNumOrNull (x : Option ℚ) : Option ℚ :=
  match x with
  | none => none
  | some q => if q = 0 then none else some q

/-- `ToNumber` coercion applied by a JavaScript relational comparison to a
`number|null` operand: `null` becomes `0`. -/
def jsNum : Option ℚ → ℚ
  | none => 0
  | some q => q

/-- `x > c` on a `number|null` left operand, as JavaScript evaluates it. -/
def jsGt (x : Option ℚ) (c : ℚ) : Bool :=
  decide (jsNum x > c)

/-- `x < c` on a `number|null` left operand, as JavaScript evaluates it. -/
def jsLt (x : Option ℚ) (c : ℚ) : Bool :=
  decide (jsNum x < c)

/-- Rendering of a `number|null` inside a template literal: `null` prints
as `"null"`, an integer as its decimal numeral. -/
def jsRenderNum : Option ℚ → String
  | none => "null"
  | some q => if q.den = 1 then toString q.num else toString q

/-! ## `utils.js`: the weather normalizer and the alert evaluator -/

/-- The normalized weather reading produced by `getWeather` in `utils.js`:
`{description, temp, wind}` with `temp`/`wind` possibly `null`. -/
structure Weather where
  description : String
  temp : Option ℚ
  wind : Option ℚ
deriving DecidableEq, Repr

/-- One item of the provider's `weather` array (`{description}`). -/
structure WeatherItem where
  description : Option String
deriving DecidableEq, Repr

/-- The provider's `main` object (`{temp}`). -/
structure MainData where
  temp : Option ℚ
deriving DecidableEq, Repr

/-- The provider's `wind` object (`{speed}`). -/
structure WindData where
  speed : Option ℚ
deriving DecidableEq, Repr

/-- The JSON payload returned by the weather provider, as `getWeather`
inspects it: `{weather:[{description}], main:{temp}, wind:{speed}}`, any
part of which may be absent. -/
structure ProviderPayload where
  weather : Option (List WeatherItem)
  main : Option MainData
  wind : Option WindData
deriving DecidableEq, Repr

/-- The optional chain `weatherData.weather?.[0]?.description`. -/
def descChain (p : ProviderPayload) : Option String :=
  (p.weather.bind List.head?).bind WeatherItem.description

/-- The normalization performed by `getWeather` in `utils.js` on the provider
payload (the HTTP round trip itself is I/O and sits outside the embedding):
`description` is `weather?.[0]?.description || "Unknown"`, `temp` is
`main?.temp || null` and `wind` is `wind?.speed || null`. -/
def getWeather (weatherData : ProviderPayload) : Weather :=
  { description := jsOrStr (descChain weatherData) "Unknown"
    temp := jsNumOrNull (weatherData.main.bind MainData.temp)
    wind := jsNumOrNull (weatherData.wind.bind WindData.speed) }

/-- Default alert text in `getAlert`. -/
def noIssuesMsg : String := "No urgent issues."

/-- Heatwave alert text in `getAlert`. -/
def heatMsg : String :=
  "Heatwave alert! Irrigate in morning/evening and provide shade if possible."

/-- Heavy-rain alert text in `getAlert`. -/
def rainMsg : String := "Heavy rain expected — ensure proper drainage."

/-- Strong-wind alert text in `getAlert`. -/
def windMsg : String := "Strong winds ahead — secure plants and structures."

/-- `getAlert` from `utils.js`: three non-exclusive `if` statements reassigning
`emergency`, evaluated in program order over the default. -/
def getAlert (weather : Weather) : String :=
  let emergency := noIssuesMsg
  let emergency := if jsGt weather.temp 40 then heatMsg else emergency
  let emergency :=
    if strIncludes weather.description "rain" && jsLt weather.temp 25 then rainMsg
    else emergency
  let emergency := if jsGt weather.wind 40 then windMsg else emergency
  emergency

/-- A condition/message pair of `getAlert`, for stating the rule-order
property. -/
structure AlertRule where
  cond : Weather → Bool
  msg : String

/-- The three rules of `getAlert` in their program order:
heat, then rain, then wind. -/
def alertRules : List AlertRule :=
  [⟨fun w => jsGt w.temp 40, heatMsg⟩,
   ⟨fun w => strIncludes w.description "rain" && jsLt w.temp 25, rainMsg⟩,
   ⟨fun w => jsGt w.wind 40, windMsg⟩]

/-- Spec-side evaluator: fold the rule list left to right starting from the
default, each matching rule overwriting the accumulated result
(last-matching-rule-wins). -/
def lastMatchEval (w : Weather) : String :=
  alertRules.foldl (fun acc r => if r.cond w then r.msg else acc) noIssuesMsg

/-- **C1.** `getAlert` evaluates its rules in the fixed order
heat → rain → wind with last-matching-rule-wins semantics over the default
`"No urgent issues."`, and the three concrete evaluations of the claim hold:
`{temp:45, wind:50, description:"heavy rain"}` gives the strong-wind message,
`{temp:45, wind:0, description:"clear"}` the heatwave message, and
`{temp:20, wind:0, description:"light rain"}` the rain message. -/
theorem getAlert_last_match_wins :
    (∀ w : Weather, getAlert w = lastMatchEval w) ∧
    getAlert ⟨"heavy rain", some 45, some 50⟩ = windMsg ∧
    getAlert ⟨"clear", some 45, some 0⟩ = heatMsg ∧
    getAlert ⟨"light rain", some 20, some 0⟩ = rainMsg := by
  refine ⟨fun w => ?_, by decide, by decide, by decide⟩
  simp only [getAlert, lastMatchEval, alertRules, List.foldl]

/-- **C2, counterexample.** The claim says a `null` temperature never triggers
the rain rule's `temp < 25` conjunct, so on
`{description:"light rain", temp:null, wind:null}` the result would stay
`"No urgent issues."`; but JavaScript coerces `null` to `0` in `null < 25`,
which is true, so `getAlert` returns the rain message. -/
theorem getAlert_null_temp_triggers_rain :
    getAlert ⟨"light rain", none, none⟩ = rainMsg ∧ rainMsg ≠ noIssuesMsg := by
  exact ⟨by decide, by decide⟩

/-- **C2, amended.** `getAlert` is a total function (it never throws), and for
a reading with `null` temperature and `null` wind: the heatwave comparison
`temp > 40` and the strong-wind comparison `wind > 40` evaluate as
not-triggered, but the rain rule's `temp < 25` conjunct evaluates as `true`
(JavaScript coerces `null` to `0`), so the result is the rain message exactly
when the description contains `"rain"`, and the default otherwise. -/
theorem getAlert_null_fields (w : Weather)
    (ht : w.temp = none) (hw : w.wind = none) :
    jsGt w.temp 40 = false ∧ jsGt w.wind 40 = false ∧ jsLt w.temp 25 = true ∧
    getAlert w =
      (if strIncludes w.description "rain" then rainMsg else noIssuesMsg) := by
  obtain ⟨d, t, v⟩ := w
  cases ht; cases hw
  refine ⟨rfl, rfl, rfl, ?_⟩
  simp [getAlert, jsGt, jsLt, jsNum]
  norm_num

/-- Witness for `getAlert_null_fields` at the concrete reading
`{description:"light rain", temp:null, wind:null}`. -/
theorem getAlert_null_fields_witness :
    getAlert ⟨"light rain", none, none⟩ =
      (if strIncludes "light rain" "rain" then rainMsg else noIssuesMsg) :=
  (getAlert_null_fields ⟨"light rain", none, none⟩ rfl rfl).2.2.2

/-- `jsNumOrNull` collapses exactly `undefined` and the falsy number `0`
to `null`. -/
theorem jsNumOrNull_eq_none (x : Option ℚ) :
    jsNumOrNull x = none ↔ (x = none ∨ x = some 0) := by
  cases x with
  | none => simp [jsNumOrNull]
  | some q =>
    by_cases hq : q = 0 <;> simp [jsNumOrNull, hq]

/-- **C10.** `getWeather` sends every falsy `main.temp` / `wind.speed` —
absent fields and the legitimate reading `0` alike — to `null`, so a reported
`0` is indistinguishable in the `Weather` reading from an absent field; a
falsy `weather[0].description` (absent or `""`) becomes `"Unknown"`. -/
theorem getWeather_falsy_normalization :
    (∀ p : ProviderPayload,
      (getWeather p).temp = none ↔
        (p.main.bind MainData.temp = none ∨ p.main.bind MainData.temp = some 0)) ∧
    (∀ p : ProviderPayload,
      (getWeather p).wind = none ↔
        (p.wind.bind WindData.speed = none ∨ p.wind.bind WindData.speed = some 0)) ∧
    (∀ p : ProviderPayload,
      getWeather { p with main := some ⟨some 0⟩ } = getWeather { p with main := none }) ∧
    (∀ p : ProviderPayload,
      getWeather { p with wind := some ⟨some 0⟩ } = getWeather { p with wind := none }) ∧
    (∀ p : ProviderPayload, descChain p = none ∨ descChain p = some "" →
      (getWeather p).description = "Unknown") := by
  refine ⟨fun p => ?_, fun p => ?_, fun p => rfl, fun p => rfl, fun p h => ?_⟩
  · simp [getWeather, jsNumOrNull_eq_none]
  · simp [getWeather, jsNumOrNull_eq_none]
  · rcases h with h | h <;> simp [getWeather, jsOrStr, h]

/-- Witness for `getWeather_falsy_normalization` at the empty provider
payload (every field absent). -/
theorem getWeather_falsy_normalization_witness :
    (getWeather ⟨none, none, none⟩).description = "Unknown" :=
  getWeather_falsy_normalization.2.2.2.2 ⟨none, none, none⟩ (Or.inl rfl)

/-! ## List lemmas for the string methods -/

/-- `a.isPrefixOf l` holds exactly when `l` extends `a` on the right. -/
theorem isPrefixOf_iff_exists_append (a : List Char) :
    ∀ l : List Char, a.isPrefixOf l = true ↔ ∃ t, l = a ++ t := by
  induction a with
  | nil => intro l; simp [List.isPrefixOf]
  | cons x xs ih =>
    intro l
    cases l with
    | nil => simp [List.isPrefixOf]
    | cons y ys =>
      simp only [List.isPrefixOf, Bool.and_eq_true, beq_iff_eq, ih,
        List.cons_append, List.cons.injEq]
      constructor
      · rintro ⟨hxy, t, ht⟩; exact ⟨t, hxy.symm, ht⟩
      · rintro ⟨t, hxy, ht⟩; exact ⟨hxy.symm, t, ht⟩

/-- A list is a prefix of itself followed by anything. -/
theorem isPrefixOf_append_self (a t : List Char) :
    a.isPrefixOf (a ++ t) = true :=
  (isPrefixOf_iff_exists_append a (a ++ t)).mpr ⟨t, rfl⟩

/-- A pattern occurs in any list that starts with it. -/
theorem charsContains_of_isPrefixOf {pat l : List Char}
    (h : pat.isPrefixOf l = true) : charsContains pat l = true := by
  cases l with
  | nil =>
    cases pat with
    | nil => rfl
    | cons x xs => simp [List.isPrefixOf] at h
  | cons c rest => simp [charsContains, h]

/-- Occurrence of a pattern is preserved by consing on the left. -/
theorem charsContains_cons {pat l : List Char} (c : Char)
    (h : charsContains pat l = true) : charsContains pat (c :: l) = true := by
  simp [charsContains, h]

/-- Occurrence of a pattern is preserved by prepending any list. -/
theorem charsContains_append_left {pat l : List Char} :
    ∀ s : List Char, charsContains pat l = true →
      charsContains pat (s ++ l) = true := by
  intro s h
  induction s with
  | nil => exact h
  | cons c cs ih => exact charsContains_cons c ih

/-- A string contains any of its leading segments' completions:
`(x ++ t).includes(x)` is true. -/
theorem strIncludes_head (x t : String) : strIncludes (x ++ t) x = true := by
  have h : x.data.isPrefixOf ((x ++ t).data) = true := by
    rw [String.data_append]; exact isPrefixOf_append_self x.data t.data
  exact charsContains_of_isPrefixOf h

/-- `includes` is preserved by prepending: if `t.includes(x)` then
`(s ++ t).includes(x)`. -/
theorem strIncludes_tail (s t x : String) (h : strIncludes t x = true) :
    strIncludes (s ++ t) x = true := by
  unfold strIncludes at h ⊢
  rw [String.data_append]
  exact charsContains_append_left s.data h

/-! ## The bearer-token authentication middleware (`part_000`) -/

/-- Outcome of the `authenticateBearer` Express middleware: either control
passes to the guarded handler (`next`), or the middleware responds with an
HTTP status and a `{error, message}` JSON body. -/
inductive AuthDecision where
  | next
  | denied (status : Nat) (error message : String)
deriving DecidableEq, Repr

/-- `authenticateBearer` from the main server file: reject when the
`Authorization` header is absent or does not start with the literal
`"Bearer "`; then fail as a 500 server fault when `MCP_BEARER_TOKEN` is not
configured in the environment (absent or empty, both falsy); then reject
when the stripped token differs from the secret; otherwise call `next()`.
`envBearerToken` models `process.env.MCP_BEARER_TOKEN` (`none` = unset). -/
def authenticateBearer (authHeader envBearerToken : Option String) :
    AuthDecision :=
  match authHeader with
  | none => .denied 401 "Unauthorized" "Bearer token required"
  | some h =>
    if jsStartsWith h "Bearer " = false then
      .denied 401 "Unauthorized" "Bearer token required"
    else
      let token := jsSubstring h 7
      match envBearerToken with
      | none => .denied 500 "Server configuration error" "MCP_BEARER_TOKEN not configured"
      | some expectedToken =>
        if expectedToken = "" then
          .denied 500 "Server configuration error" "MCP_BEARER_TOKEN not configured"
        else if token ≠ expectedToken then
          .denied 401 "Unauthorized" "Invalid bearer token"
        else
          .next

/-- A string starting with `"Bearer "` is that literal followed by the
stripped token `substring(7)`. -/
theorem eq_bearer_append_of_startsWith {h : String}
    (hp : jsStartsWith h "Bearer " = true) :
    h = "Bearer " ++ jsSubstring h 7 := by
  obtain ⟨t, ht⟩ := (isPrefixOf_iff_exists_append "Bearer ".data h.data).mp hp
  have hdrop : h.data.drop 7 = t := by
    rw [ht]
    exact List.drop_left "Bearer ".data t
  have hsub : jsSubstring h 7 = String.mk t := by
    unfold jsSubstring; rw [hdrop]
  rw [hsub]
  show h = String.mk ("Bearer ".data ++ t)
  rw [← ht]

/-- **C3.** The auth guard checks its reasons in the fixed order
missing-header (absent header or header not starting with the literal
`"Bearer "`), then server-misconfiguration (no secret in the environment —
a 500 server fault, not a 401 deny), then invalid token; and with a
configured non-empty secret, access is granted (`next`) if and only if the
header is exactly `"Bearer "` followed by the secret — case-sensitive
string equality, no trimming beyond the fixed prefix. -/
theorem authenticateBearer_decision :
    (∀ env, authenticateBearer none env =
      .denied 401 "Unauthorized" "Bearer token required") ∧
    (∀ h env, jsStartsWith h "Bearer " = false →
      authenticateBearer (some h) env =
        .denied 401 "Unauthorized" "Bearer token required") ∧
    (∀ h, jsStartsWith h "Bearer " = true →
      authenticateBearer (some h) none =
        .denied 500 "Server configuration error" "MCP_BEARER_TOKEN not configured") ∧
    (∀ h, jsStartsWith h "Bearer " = true →
      authenticateBearer (some h) (some "") =
        .denied 500 "Server configuration error" "MCP_BEARER_TOKEN not configured") ∧
    (∀ hdr secret, secret ≠ "" →
      (authenticateBearer hdr (some secret) = .next ↔
        hdr = some ("Bearer " ++ secret))) := by
  refine ⟨fun env => rfl, fun h env hs => ?_, fun h hs => ?_, fun h hs => ?_,
    fun hdr secret hsec => ?_⟩
  · simp [authenticateBearer, hs]
  · simp [authenticateBearer, hs]
  · simp [authenticateBearer, hs]
  · constructor
    · intro hnext
      cases hdr with
      | none => simp [authenticateBearer] at hnext
      | some h =>
        by_cases hs : jsStartsWith h "Bearer " = true
        · by_cases htok : jsSubstring h 7 = secret
          · rw [Option.some_inj, eq_bearer_append_of_startsWith hs, htok]
          · simp [authenticateBearer, hs, hsec, htok] at hnext
        · simp [authenticateBearer, eq_false_of_ne_true hs] at hnext
    · rintro rfl
      have hs : jsStartsWith ("Bearer " ++ secret) "Bearer " = true := by
        unfold jsStartsWith
        rw [String.data_append]
        exact isPrefixOf_append_self "Bearer ".data secret.data
      have htok : jsSubstring ("Bearer " ++ secret) 7 = secret := by
        unfold jsSubstring
        rw [String.data_append]
        have := List.drop_left "Bearer ".data secret.data
        simp only [show "Bearer ".data.length = 7 from rfl] at this
        rw [this]
      simp [authenticateBearer, hs, htok, hsec]

/-- Witness for `authenticateBearer_decision`: with secret `"s3cret"`, the
header `"Bearer s3cret"` is granted access. -/
theorem authenticateBearer_decision_witness :
    authenticateBearer (some ("Bearer " ++ "s3cret")) (some "s3cret") = .next :=
  (authenticateBearer_decision.2.2.2.2 (some ("Bearer " ++ "s3cret")) "s3cret"
    (by decide)).mpr rfl

/-! ## The prompt builders of the three server variants -/

/-- The language ternary of the main server's prompt
(`lang === "hi" ? "Hindi (Devanagari script)" : "English"`). -/
def langInstr000 (lang : String) : String :=
  if lang = "hi" then "Hindi (Devanagari script)" else "English"

/-- The language ternary of the richer server variant's prompt
(`lang === "hi" ? "Hindi (use Devanagari script)" : "English"`). -/
def langInstr001 (lang : String) : String :=
  if lang = "hi" then "Hindi (use Devanagari script)" else "English"

/-- The language ternary of the minimal server variant's prompt
(`lang === "hi" ? "Hindi" : "English"`). -/
def langInstr002 (lang : String) : String :=
  if lang = "hi" then "Hindi" else "English"

/-- The template literal `prompt` built by the main server's
`/get-farmer-advice` handler. -/
def prompt000 (crop region : String) (weather : Weather)
    (emergency lang : String) : String :=
  "\n      You are a farming assistant for Indian farmers.\n      Weather: "
  ++ weather.description
  ++ ", Temperature: " ++ jsRenderNum weather.temp
  ++ "°C, Wind Speed: " ++ jsRenderNum weather.wind
  ++ " km/h\n      Crop: " ++ crop
  ++ "\n      Region: " ++ region
  ++ "\n      Emergency alert: " ++ emergency
  ++ "\n      \n      Provide a concise, practical farming tip for this situation. Consider:\n      - Current weather conditions\n      - Crop-specific needs\n      - Regional farming practices\n      - Seasonal considerations\n      \n      Language: "
  ++ langInstr000 lang
  ++ "\n      Keep the response under 150 words and actionable.\n    "

/-- The template literal `prompt` built by the richer server variant's
`/get-farmer-advice` handler. -/
def prompt001 (crop region : String) (weather : Weather)
    (emergency lang : String) : String :=
  "You are an expert agricultural advisor for Indian farmers.\n\nCURRENT CONDITIONS:\n- Location: "
  ++ region
  ++ ", India\n- Crop: " ++ crop
  ++ "\n- Weather: " ++ weather.description
  ++ "\n- Temperature: " ++ jsRenderNum weather.temp
  ++ "°C\n- Wind: " ++ jsRenderNum weather.wind
  ++ " km/h\n- Emergency Status: " ++ emergency
  ++ "\n\nTASK: Provide specific, actionable farming advice for this situation.\n\nGUIDELINES:\n- Consider the current weather impact on "
  ++ crop
  ++ "\n- Include immediate actions the farmer should take\n- Mention any preventive measures needed\n- Keep advice practical and location-specific\n- Language: "
  ++ langInstr001 lang
  ++ "\n- Length: Maximum 100 words\n\nFocus on what the farmer should do TODAY based on these conditions."

/-- The template literal `prompt` built by the minimal server variant's
`/get-farmer-advice` handler; note that it interpolates no region. -/
def prompt002 (crop : String) (weather : Weather)
    (emergency lang : String) : String :=
  "\n      You are a farming assistant.\n      Weather: "
  ++ weather.description
  ++ ", Temperature: " ++ jsRenderNum weather.temp
  ++ "°C, Wind Speed: " ++ jsRenderNum weather.wind
  ++ " km/h\n      Crop: " ++ crop
  ++ "\n      Emergency alert: " ++ emergency
  ++ "\n      Give a short, practical farming tip for this situation.\n      Language: "
  ++ langInstr002 lang
  ++ "\n    "

set_option maxRecDepth 8192 in
/-- **C7, counterexample.** The claim ranges over both cited prompt builders,
but the minimal variant's prompt for a request with region `"Punjab"` and
language `"hi"` contains neither the region nor a Devanagari-script
instruction: its template interpolates no region and its Hindi instruction
is the bare word `"Hindi"`. -/
theorem prompt002_no_region_counterexample :
    strIncludes (prompt002 "wheat" ⟨"clear sky", some 30, some 10⟩
      noIssuesMsg "hi") "Punjab" = false ∧
    strIncludes (prompt002 "wheat" ⟨"clear sky", some 30, some 10⟩
      noIssuesMsg "hi") "Devanagari" = false := by
  exact ⟨by decide, by decide⟩

set_option maxRecDepth 8192 in
/-- **C7, amended.** The main server's prompt embeds the weather description,
the temperature and wind speed (rendered even when `null`, as `"null"`), the
crop, the region, the alert text, and a language instruction —
`"Hindi (Devanagari script)"` for `"hi"`, `"English"` for anything else; the
minimal variant's prompt embeds the same pieces except the region, and its
Hindi instruction is `"Hindi"` without the Devanagari specification. -/
theorem prompts_embed_inputs (crop region : String) (w : Weather)
    (emergency lang : String) :
    (strIncludes (prompt000 crop region w emergency lang) w.description = true ∧
     strIncludes (prompt000 crop region w emergency lang) (jsRenderNum w.temp) = true ∧
     strIncludes (prompt000 crop region w emergency lang) (jsRenderNum w.wind) = true ∧
     strIncludes (prompt000 crop region w emergency lang) crop = true ∧
     strIncludes (prompt000 crop region w emergency lang) region = true ∧
     strIncludes (prompt000 crop region w emergency lang) emergency = true ∧
     (lang = "hi" →
       strIncludes (prompt000 crop region w emergency lang)
         "Hindi (Devanagari script)" = true) ∧
     (lang ≠ "hi" →
       strIncludes (prompt000 crop region w emergency lang) "English" = true)) ∧
    (strIncludes (prompt002 crop w emergency lang) w.description = true ∧
     strIncludes (prompt002 crop w emergency lang) (jsRenderNum w.temp) = true ∧
     strIncludes (prompt002 crop w emergency lang) (jsRenderNum w.wind) = true ∧
     strIncludes (prompt002 crop w emergency lang) crop = true ∧
     strIncludes (prompt002 crop w emergency lang) emergency = true ∧
     (lang = "hi" →
       strIncludes (prompt002 crop w emergency lang) "Hindi" = true) ∧
     (lang ≠ "hi" →
       strIncludes (prompt002 crop w emergency lang) "English" = true)) := by
  refine ⟨⟨?_, ?_, ?_, ?_, ?_, ?_, fun hl => ?_, fun hl => ?_⟩,
    ⟨?_, ?_, ?_, ?_, ?_, fun hl => ?_, fun hl => ?_⟩⟩
  all_goals simp only [prompt000, prompt002, langInstr000, langInstr002,
    String.append_assoc]
  · repeat first
      | exact strIncludes_head _ _
      | apply strIncludes_tail
  · repeat first
      | exact strIncludes_head _ _
      | apply strIncludes_tail
  · repeat first
      | exact strIncludes_head _ _
      | apply strIncludes_tail
  · repeat first
      | exact strIncludes_head _ _
      | apply strIncludes_tail
  · repeat first
      | exact strIncludes_head _ _
      | apply strIncludes_tail
  · repeat first
      | exact strIncludes_head _ _
      | apply strIncludes_tail
  · rw [if_pos hl]
    repeat first
      | exact strIncludes_head _ _
      | apply strIncludes_tail
  · rw [if_neg hl]
    repeat first
      | exact strIncludes_head _ _
      | apply strIncludes_tail
  · repeat first
      | exact strIncludes_head _ _
      | apply strIncludes_tail
  · repeat first
      | exact strIncludes_head _ _
      | apply strIncludes_tail
  · repeat first
      | exact strIncludes_head _ _
      | apply strIncludes_tail
  · repeat first
      | exact strIncludes_head _ _
      | apply strIncludes_tail
  · repeat first
      | exact strIncludes_head _ _
      | apply strIncludes_tail
  · rw [if_pos hl]
    repeat first
      | exact strIncludes_head _ _
      | apply strIncludes_tail
  · rw [if_neg hl]
    repeat first
      | exact strIncludes_head _ _
      | apply strIncludes_tail

set_option maxRecDepth 8192 in
/-- Witness for `prompts_embed_inputs`: at language `"hi"`, the main server's
prompt for concrete inputs contains the Devanagari instruction. -/
theorem prompts_embed_inputs_witness :
    strIncludes (prompt000 "wheat" "Punjab" ⟨"clear sky", none, some 5⟩
      noIssuesMsg "hi") "Hindi (Devanagari script)" = true :=
  (prompts_embed_inputs "wheat" "Punjab" ⟨"clear sky", none, some 5⟩
    noIssuesMsg "hi").1.2.2.2.2.2.2.1 rfl

/-- **C8.** For identical crop/region/weather/alert inputs, the prompts built
for two language values share a common prefix and suffix and differ only in
the interpolated language instruction, for the main server's builder and the
minimal variant's builder alike. -/
theorem prompt_language_noninterference (crop region : String) (w : Weather)
    (emergency l₁ l₂ : String) :
    ∃ p₀ s₀ p₂ s₂ : String,
      prompt000 crop region w emergency l₁ = p₀ ++ (langInstr000 l₁ ++ s₀) ∧
      prompt000 crop region w emergency l₂ = p₀ ++ (langInstr000 l₂ ++ s₀) ∧
      prompt002 crop w emergency l₁ = p₂ ++ (langInstr002 l₁ ++ s₂) ∧
      prompt002 crop w emergency l₂ = p₂ ++ (langInstr002 l₂ ++ s₂) := by
  refine ⟨"\n      You are a farming assistant for Indian farmers.\n      Weather: "
      ++ w.description
      ++ ", Temperature: " ++ jsRenderNum w.temp
      ++ "°C, Wind Speed: " ++ jsRenderNum w.wind
      ++ " km/h\n      Crop: " ++ crop
      ++ "\n      Region: " ++ region
      ++ "\n      Emergency alert: " ++ emergency
      ++ "\n      \n      Provide a concise, practical farming tip for this situation. Consider:\n      - Current weather conditions\n      - Crop-specific needs\n      - Regional farming practices\n      - Seasonal considerations\n      \n      Language: ",
    "\n      Keep the response under 150 words and actionable.\n    ",
    "\n      You are a farming assistant.\n      Weather: "
      ++ w.description
      ++ ", Temperature: " ++ jsRenderNum w.temp
      ++ "°C, Wind Speed: " ++ jsRenderNum w.wind
      ++ " km/h\n      Crop: " ++ crop
      ++ "\n      Emergency alert: " ++ emergency
      ++ "\n      Give a short, practical farming tip for this situation.\n      Language: ",
    "\n    ", ?_, ?_, ?_, ?_⟩ <;>
    simp only [prompt000, prompt002, String.append_assoc]

/-! ## The `/get-farmer-advice` request handlers

The two upstream HTTP round trips are modelled as oracle functions given to
the handler: `fetchWeather` for `getWeather(region)` (already returning the
normalized reading) and `genAdvice` for the chat-completion call on the built
prompt.  A thrown upstream error is the `.error` case of `Except`, carrying
exactly the fields the `catch` blocks inspect.  `now` models
`new Date().toISOString()` and `rand` the `Math.random()`-derived request id
of the richer variant.  Each handler also returns the list of upstream calls
it performed, in order, so that "no upstream call" is statable. -/

/-- The error-object fields inspected by the handlers' `catch` blocks:
`err.response?.status`, `err.code` and `err.message`. -/
structure JsError where
  responseStatus : Option Nat
  code : Option String
  message : String
deriving DecidableEq, Repr

/-- One upstream invocation performed by a handler. -/
inductive UpCall where
  | weatherCall (region : String)
  | genCall (prompt : String)
deriving DecidableEq, Repr

/-- The `data` object of the main server's 200 response. -/
structure AdvisoryData where
  crop : String
  region : String
  forecast : String
  daily_tip : String
  emergency_alert : String
  timestamp : String
  language : String
deriving DecidableEq, Repr

/-- Response body of the main server's handler: either an error JSON
`{error, message}` (for the 4xx/5xx branches) or the `{success:true, data}`
advisory JSON. -/
inductive Body000 where
  | errBody (error message : String)
  | advisory (data : AdvisoryData)
deriving DecidableEq, Repr

/-- An HTTP response of the main server's handler: status code plus body. -/
structure Resp000 where
  status : Nat
  body : Body000
deriving DecidableEq, Repr

/-- The `catch` block of the main server's `/get-farmer-advice` route:
a `404` from the weather provider maps to HTTP 404 echoing the region, a
`401` to HTTP 500 naming the weather-credentials configuration, anything
else to the generic HTTP 500 carrying `err.message` (with a fallback when
that is falsy). -/
def catch000 (region : String) (err : JsError) : Resp000 :=
  if err.responseStatus = some 404 then
    ⟨404, .errBody "Location not found"
      ("Unable to find weather data for region: " ++ region)⟩
  else if err.responseStatus = some 401 then
    ⟨500, .errBody "Weather API authentication failed"
      "Please check OPENWEATHER_API_KEY configuration"⟩
  else
    ⟨500, .errBody "Internal server error"
      (if err.message = "" then
        "Something went wrong while processing your request"
      else err.message)⟩

/-- The main server's `/get-farmer-advice` handler (after the auth
middleware): destructure `{crop, region, lang = "en"}` from the query,
reject falsy `crop`/`region` with HTTP 400 before any upstream call, then
fetch weather, derive the alert, build the prompt, call the generator, and
shape the `{success:true, data:{...}}` payload; any thrown upstream error
goes through `catch000`. -/
def handle000 (crop region langQ : Option String)
    (fetchWeather : String → Except JsError Weather)
    (genAdvice : String → Except JsError String)
    (now : String) : Resp000 × List UpCall :=
  let lang := langQ.getD "en"
  match crop, region with
  | some c, some r =>
    if c = "" || r = "" then
      (⟨400, .errBody "Missing parameters"
        "Both crop and region parameters are required"⟩, [])
    else
      match fetchWeather r with
      | .error e => (catch000 r e, [.weatherCall r])
      | .ok weather =>
        let emergency := getAlert weather
        let prompt := prompt000 c r weather emergency lang
        match genAdvice prompt with
        | .error e => (catch000 r e, [.weatherCall r, .genCall prompt])
        | .ok advice =>
          (⟨200, .advisory
            { crop := c
              region := r
              forecast := weather.description ++ ", " ++ jsRenderNum weather.temp
                ++ "°C, Wind: " ++ jsRenderNum weather.wind ++ " km/h"
              daily_tip := advice
              emergency_alert := emergency
              timestamp := now
              language := lang }⟩, [.weatherCall r, .genCall prompt])
  | _, _ =>
    (⟨400, .errBody "Missing parameters"
      "Both crop and region parameters are required"⟩, [])

/-- The `data` object of the richer variant's 200 response. -/
structure Data001 where
  crop : String
  region : String
  weather_forecast : String
  farming_advice : String
  emergency_alert : String
  language : String
  timestamp : String
  confidence : String
deriving DecidableEq, Repr

/-- The `metadata` object of the richer variant's 200 response;
`request_id` comes from `Math.random()`. -/
structure Meta001 where
  weather_source : String
  ai_model : String
  request_id : String
deriving DecidableEq, Repr

/-- Response body of the richer variant's handler: an error JSON
`{success:false, error, message}` (decorative constant fields such as
`usage` and `suggestions` elided) or the `{success:true, data, metadata}`
advisory JSON. -/
inductive Body001 where
  | errBody (error message : String)
  | success (data : Data001) (metadata : Meta001)
deriving DecidableEq, Repr

/-- An HTTP response of the richer variant's handler. -/
structure Resp001 where
  status : Nat
  body : Body001
deriving DecidableEq, Repr

/-- The `catch` block of the richer variant's `/get-farmer-advice` route:
`error.response?.status === 404` maps to HTTP 404 echoing the region, then
`error.code === 'insufficient_quota'` to HTTP 503, anything else to the
generic HTTP 500 (its development-only `details` field elided). -/
def catch001 (region : String) (err : JsError) : Resp001 :=
  if err.responseStatus = some 404 then
    ⟨404, .errBody "Location not found"
      ("Weather data unavailable for " ++ region ++ ". Try a major city name.")⟩
  else if err.code = some "insufficient_quota" then
    ⟨503, .errBody "Service temporarily unavailable"
      "AI service quota exceeded. Please try again later."⟩
  else
    ⟨500, .errBody "Internal server error"
      "Unable to generate farming advice at this time"⟩

/-- The richer variant's `/get-farmer-advice` handler: validate, fetch
weather, derive the alert, build its prompt, call the generator and shape
`{success:true, data:{...}, metadata:{...}}`; thrown upstream errors go
through `catch001`. -/
def handle001 (crop region langQ : Option String)
    (fetchWeather : String → Except JsError Weather)
    (genAdvice : String → Except JsError String)
    (now rand : String) : Resp001 × List UpCall :=
  let lang := langQ.getD "en"
  match crop, region with
  | some c, some r =>
    if c = "" || r = "" then
      (⟨400, .errBody "Missing required parameters"
        "Both 'crop' and 'region' parameters are required"⟩, [])
    else
      match fetchWeather r with
      | .error e => (catch001 r e, [.weatherCall r])
      | .ok weather =>
        let emergency := getAlert weather
        let prompt := prompt001 c r weather emergency lang
        match genAdvice prompt with
        | .error e => (catch001 r e, [.weatherCall r, .genCall prompt])
        | .ok advice =>
          (⟨200, .success
            { crop := c
              region := r
              weather_forecast := weather.description ++ ", "
                ++ jsRenderNum weather.temp ++ "°C, Wind: "
                ++ jsRenderNum weather.wind ++ " km/h"
              farming_advice := advice
              emergency_alert := emergency
              language := lang
              timestamp := now
              confidence := "high" }
            { weather_source := "OpenWeatherMap"
              ai_model := "GPT-4o-mini"
              request_id := rand }⟩, [.weatherCall r, .genCall prompt])
  | _, _ =>
    (⟨400, .errBody "Missing required parameters"
      "Both 'crop' and 'region' parameters are required"⟩, [])

/-- Every list is a prefix of itself. -/
theorem isPrefixOf_self (a : List Char) : a.isPrefixOf a = true :=
  (isPrefixOf_iff_exists_append a a).mpr ⟨[], (List.append_nil a).symm⟩

/-- Every string contains itself. -/
theorem strIncludes_self (s : String) : strIncludes s s = true :=
  charsContains_of_isPrefixOf (isPrefixOf_self s.data)

/-- **C4.** When `crop` or `region` is missing or empty, the main server's
handler answers HTTP 400 (`"Missing parameters"`) and performs no upstream
call at all: neither the weather provider nor the generation provider is
invoked. -/
theorem handle000_validation_before_upstream
    (crop region langQ : Option String)
    (fetchWeather : String → Except JsError Weather)
    (genAdvice : String → Except JsError String) (now : String)
    (h : strFalsy crop = true ∨ strFalsy region = true) :
    handle000 crop region langQ fetchWeather genAdvice now =
      (⟨400, .errBody "Missing parameters"
        "Both crop and region parameters are required"⟩, []) := by
  rcases crop with _ | c
  · rfl
  rcases region with _ | r
  · rfl
  simp only [strFalsy, decide_eq_true_eq] at h
  rcases h with h | h <;> simp [handle000, h]

/-- Witness for `handle000_validation_before_upstream`: a request with no
`crop` gets the 400 response and an empty upstream-call list, even against
live-looking oracles. -/
theorem handle000_validation_before_upstream_witness :
    handle000 none (some "Punjab") none
      (fun _ => .ok ⟨"clear sky", some 30, some 5⟩) (fun _ => .ok "tip")
      "2025-01-01T00:00:00Z" =
      (⟨400, .errBody "Missing parameters"
        "Both crop and region parameters are required"⟩, []) :=
  handle000_validation_before_upstream none (some "Punjab") none
    (fun _ => .ok ⟨"clear sky", some 30, some 5⟩) (fun _ => .ok "tip")
    "2025-01-01T00:00:00Z" (Or.inl rfl)

/-- **C5.** When the weather fetch throws with the provider's 404, the main
server's handler answers HTTP 404 with the offending region echoed in the
message; when it throws with the provider's 401, the handler answers
HTTP 500 naming the weather-credentials configuration
(`OPENWEATHER_API_KEY`) — a server-side fault, not a user error. -/
theorem handle000_weather_error_mapping (c r : String) (langQ : Option String)
    (fetchWeather : String → Except JsError Weather)
    (genAdvice : String → Except JsError String) (now : String)
    (hc : c ≠ "") (hr : r ≠ "") (e : JsError)
    (hf : fetchWeather r = .error e) :
    (e.responseStatus = some 404 →
      (handle000 (some c) (some r) langQ fetchWeather genAdvice now).1 =
        ⟨404, .errBody "Location not found"
          ("Unable to find weather data for region: " ++ r)⟩ ∧
      strIncludes ("Unable to find weather data for region: " ++ r) r
        = true) ∧
    (e.responseStatus = some 401 →
      (handle000 (some c) (some r) langQ fetchWeather genAdvice now).1 =
        ⟨500, .errBody "Weather API authentication failed"
          "Please check OPENWEATHER_API_KEY configuration"⟩) := by
  constructor
  · intro h404
    refine ⟨?_, strIncludes_tail _ r r (strIncludes_self r)⟩
    simp [handle000, hc, hr, hf, catch000, h404]
  · intro h401
    simp [handle000, hc, hr, hf, catch000, h401]

/-- Witness for `handle000_weather_error_mapping`: a weather oracle throwing
the provider's 404 for region `"Atlantis"` yields the echoing 404
response. -/
theorem handle000_weather_error_mapping_witness :
    (handle000 (some "wheat") (some "Atlantis") none
      (fun _ => .error ⟨some 404, none, "Request failed with status code 404"⟩)
      (fun _ => .ok "tip") "2025-01-01T00:00:00Z").1 =
      ⟨404, .errBody "Location not found"
        ("Unable to find weather data for region: " ++ "Atlantis")⟩ :=
  ((handle000_weather_error_mapping "wheat" "Atlantis" none
    (fun _ => .error ⟨some 404, none, "Request failed with status code 404"⟩)
    (fun _ => .ok "tip") "2025-01-01T00:00:00Z" (by decide) (by decide)
    ⟨some 404, none, "Request failed with status code 404"⟩ rfl).1 rfl).1

/-- **C6.** In the richer server variant, a generation failure carrying the
provider's resource-exhaustion code `insufficient_quota` (and not a 404
response status, which the catch checks first — the real quota fault carries
HTTP 429) maps to HTTP 503 `"Service temporarily unavailable"`, a status
distinct from the generic 500. -/
theorem handle001_quota_maps_503 (c r : String) (langQ : Option String)
    (fetchWeather : String → Except JsError Weather)
    (genAdvice : String → Except JsError String) (now rand : String)
    (hc : c ≠ "") (hr : r ≠ "") (w : Weather) (hf : fetchWeather r = .ok w)
    (e : JsError)
    (hg : genAdvice (prompt001 c r w (getAlert w) (langQ.getD "en"))
      = .error e)
    (hcode : e.code = some "insufficient_quota")
    (h404 : e.responseStatus ≠ some 404) :
    (handle001 (some c) (some r) langQ fetchWeather genAdvice now rand).1 =
      ⟨503, .errBody "Service temporarily unavailable"
        "AI service quota exceeded. Please try again later."⟩ ∧
    (handle001 (some c) (some r) langQ fetchWeather genAdvice now rand).1.status
      ≠ 500 := by
  have hmap :
      (handle001 (some c) (some r) langQ fetchWeather genAdvice now rand).1 =
        ⟨503, .errBody "Service temporarily unavailable"
          "AI service quota exceeded. Please try again later."⟩ := by
    simp [handle001, hc, hr, hf, hg, catch001, hcode, h404]
  exact ⟨hmap, by rw [hmap]; decide⟩

/-- Witness for `handle001_quota_maps_503`: a generation oracle throwing the
quota fault (HTTP 429, code `insufficient_quota`) yields the 503 response. -/
theorem handle001_quota_maps_503_witness :
    (handle001 (some "wheat") (some "Punjab") none
      (fun _ => .ok ⟨"clear sky", some 30, some 5⟩)
      (fun _ => .error ⟨some 429, some "insufficient_quota", "quota exceeded"⟩)
      "2025-01-01T00:00:00Z" "k3yx9").1 =
      ⟨503, .errBody "Service temporarily unavailable"
        "AI service quota exceeded. Please try again later."⟩ :=
  (handle001_quota_maps_503 "wheat" "Punjab" none
    (fun _ => .ok ⟨"clear sky", some 30, some 5⟩)
    (fun _ => .error ⟨some 429, some "insufficient_quota", "quota exceeded"⟩)
    "2025-01-01T00:00:00Z" "k3yx9" (by decide) (by decide)
    ⟨"clear sky", some 30, some 5⟩ rfl
    ⟨some 429, some "insufficient_quota", "quota exceeded"⟩ rfl rfl
    (by decide)).1

/-- Erase the `timestamp` of the main server's advisory payload, leaving
every other part of the response intact. -/
def stripTimestamp000 : Resp000 → Resp000
  | ⟨s, .advisory d⟩ => ⟨s, .advisory { d with timestamp := "" }⟩
  | r => r

/-- The `Advisory` part of a richer-variant response — the `data` object of
a success, with its `timestamp` erased (the `metadata` envelope, whose
`request_id` comes from `Math.random()`, is not part of the advisory). -/
def advisoryData001 : Resp001 → Option Data001
  | ⟨_, .success d _⟩ => some { d with timestamp := "" }
  | _ => none

/-- **C9.** Against fixed deterministic weather and generation oracles, two
identical advisory requests yield identical payloads up to `timestamp`: the
main server's whole response agrees after erasing the timestamp, and the
richer variant's advisory `data` object likewise (its `metadata.request_id`
is random and sits outside the advisory payload). -/
theorem handlers_deterministic_modulo_timestamp
    (crop region langQ : Option String)
    (fetchWeather : String → Except JsError Weather)
    (genAdvice : String → Except JsError String)
    (t₁ t₂ rand₁ rand₂ : String) :
    stripTimestamp000
        (handle000 crop region langQ fetchWeather genAdvice t₁).1 =
      stripTimestamp000
        (handle000 crop region langQ fetchWeather genAdvice t₂).1 ∧
    advisoryData001
        (handle001 crop region langQ fetchWeather genAdvice t₁ rand₁).1 =
      advisoryData001
        (handle001 crop region langQ fetchWeather genAdvice t₂ rand₂).1 := by
  constructor
  · rcases crop with _ | c
    · rfl
    rcases region with _ | r
    · rfl
    by_cases hcr : (c = "" || r = "") = true
    · simp [handle000, hcr]
    rw [Bool.not_eq_true] at hcr
    cases hf : fetchWeather r with
    | error e => simp [handle000, hcr, hf]
    | ok w =>
      cases hg : genAdvice (prompt000 c r w (getAlert w) (langQ.getD "en")) with
      | error e => simp [handle000, hcr, hf, hg]
      | ok a => simp [handle000, hcr, hf, hg, stripTimestamp000]
  · rcases crop with _ | c
    · rfl
    rcases region with _ | r
    · rfl
    by_cases hcr : (c = "" || r = "") = true
    · simp [handle001, hcr]
    rw [Bool.not_eq_true] at hcr
    cases hf : fetchWeather r with
    | error e => simp [handle001, hcr, hf]
    | ok w =>
      cases hg : genAdvice (prompt001 c r w (getAlert w) (langQ.getD "en")) with
      | error e => simp [handle001, hcr, hf, hg]
      | ok a => simp [handle001, hcr, hf, hg, advisoryData001]

end KisanMitra
